import Mathlib

set_option autoImplicit false

/-!
Shallow embedding of the real-time synchronization core of the unmanic
frontend-v3 client: the three Pinia domain state stores (workers, queue,
history), the app bootstrap store, and the WebSocket client with its
stream registry and reconnect timer.

Asynchronous REST calls are embedded by passing the awaited outcome of the
call (`Except String response`: resolution payload or rejection message)
as an explicit argument to the store action; the action itself is a total
state transformer, mirroring the fact that every store action wraps its
awaits in try/catch and therefore always returns normally.
-/

/-- Worker entity, from the workers store (stores/workers.ts). -/
structure Worker where
  id : String
  name : String
  idle : Bool
  paused : Bool
  current_file : Option String
  current_task : Option Int
  start_time : Option String
  deriving DecidableEq

/-- Worker status badge text from the WorkerCard component: paused is
checked first, then idle, otherwise the worker is shown transcoding. -/
def statusText (w : Worker) : String :=
  if w.paused then "Paused" else if w.idle then "Idle" else "Transcoding"

/-- State of the workers store: collection, loading flag, error slot. -/
structure WorkersState where
  workers : List Worker
  loading : Bool
  error : Option String
  deriving DecidableEq

/-- Computed activeWorkers: workers that are neither idle nor paused. -/
def activeWorkers (workers : List Worker) : List Worker :=
  workers.filter (fun w => !w.idle && !w.paused)

/-- Computed idleWorkers: workers whose idle flag is set. -/
def idleWorkers (workers : List Worker) : List Worker :=
  workers.filter (fun w => w.idle)

/-- Computed pausedWorkers: workers whose paused flag is set. -/
def pausedWorkers (workers : List Worker) : List Worker :=
  workers.filter (fun w => w.paused)

/-- Computed workerCount. -/
def workerCount (workers : List Worker) : Nat :=
  workers.length

/-- Payload of the workers/status REST response: response.data.workers may
be absent, in which case the store substitutes the empty list. -/
structure WorkersResponse where
  workers : Option (List Worker)
  deriving DecidableEq

/-- Fixed domain error message of the workers store fetch. -/
def workersFetchErrMsg : String := "Failed to fetch workers"

/-- Action fetchWorkers: sets loading and clears error, then on resolution
replaces the collection with response.data.workers or the empty list; on
rejection sets the fixed domain error message; the finally step clears
loading on both paths. -/
def fetchWorkers (res : Except String WorkersResponse) (s : WorkersState) :
    WorkersState :=
  let s1 : WorkersState := { s with loading := true, error := none }
  let s2 : WorkersState :=
    match res with
    | .ok r => { s1 with workers := r.workers.getD [] }
    | .error _ => { s1 with error := some workersFetchErrMsg }
  { s2 with loading := false }

/-- Message delivered to the workers push handler: the handler only reads
the optional workers field of the routed message. -/
structure WorkersMessage where
  success : Bool
  workers : Option (List Worker)
  deriving DecidableEq

/-- Push handler registered by the workers store setupWebSocket: if the
message carries a workers field the collection is replaced wholesale,
otherwise the message is ignored. -/
def workersPushHandler (msg : WorkersMessage) (s : WorkersState) :
    WorkersState :=
  match msg.workers with
  | some ws => { s with workers := ws }
  | none => s

/-- Queue task entity, from the queue store. -/
structure QueueTask where
  id : Int
  library_id : Int
  abspath : String
  priority : Int
  created_at : String
  deriving DecidableEq

/-- State of the queue store: collection, server-reported total, loading
flag, error slot. totalTasks is a JavaScript number, embedded as Int. -/
structure QueueState where
  tasks : List QueueTask
  totalTasks : Int
  loading : Bool
  error : Option String
  deriving DecidableEq

/-- Paginated REST response body: data rows and recordsTotal, both
optional, defaulted by the stores to the empty list and zero. -/
structure PageResponse (α : Type) where
  data : Option (List α)
  recordsTotal : Option Int
  deriving DecidableEq

/-- Fixed domain error message of the queue store fetch. -/
def queueFetchErrMsg : String := "Failed to fetch queue"

/-- Action fetchQueue(start, length): sets loading and clears error; on
resolution the collection is replaced by the fetched page (for every
start value) and totalTasks is set from recordsTotal; on rejection the
fixed domain message is set; the finally step clears loading. The start
and length arguments are only forwarded to the REST call. -/
def fetchQueue (start length : Int)
    (res : Except String (PageResponse QueueTask)) (s : QueueState) :
    QueueState :=
  let _ := start
  let _ := length
  let s1 : QueueState := { s with loading := true, error := none }
  let s2 : QueueState :=
    match res with
    | .ok r =>
        { s1 with tasks := r.data.getD [], totalTasks := r.recordsTotal.getD 0 }
    | .error _ => { s1 with error := some queueFetchErrMsg }
  { s2 with loading := false }

/-- Fixed domain error message of the queue store task deletion. -/
def deleteTaskErrMsg : String := "Failed to delete task"

/-- Action deleteTask(taskId): awaits the backend DELETE first; only when
it resolves does the store filter the task out of the collection and
decrement totalTasks; when the call rejects, the catch sets the fixed
error message and the collection and count are untouched. -/
def deleteTask (res : Except String Unit) (taskId : Int) (s : QueueState) :
    QueueState :=
  match res with
  | .ok _ =>
      { s with tasks := s.tasks.filter (fun t => t.id != taskId),
               totalTasks := s.totalTasks - 1 }
  | .error _ => { s with error := some deleteTaskErrMsg }

/-- Payload object of the pending_tasks_info push message. -/
structure PendingTasksInfo where
  results : Option (List QueueTask)
  recordsTotal : Option Int
  deriving DecidableEq

/-- Message delivered to the queue push handler: the handler only reads
the optional pending_tasks_info field. -/
structure PendingTasksMessage where
  success : Bool
  pending_tasks_info : Option PendingTasksInfo
  deriving DecidableEq

/-- Push handler registered by the queue store setupWebSocket: if the
message carries a pending_tasks_info field, the collection is replaced by
its results (defaulted to empty) and totalTasks by its recordsTotal
(defaulted to zero); otherwise the message is ignored. -/
def queuePushHandler (msg : PendingTasksMessage) (s : QueueState) :
    QueueState :=
  match msg.pending_tasks_info with
  | some info =>
      { s with tasks := info.results.getD [],
               totalTasks := info.recordsTotal.getD 0 }
  | none => s

/-- History task entity, from the history store. -/
structure HistoryTask where
  id : Int
  library_id : Int
  abspath : String
  task_label : String
  task_success : Bool
  processed_by_worker : String
  finish_time : String
  start_time : String
  deriving DecidableEq

/-- State of the history store. -/
structure HistoryState where
  tasks : List HistoryTask
  totalTasks : Int
  loading : Bool
  error : Option String
  deriving DecidableEq

/-- Fixed domain error message of the history store fetch. -/
def historyFetchErrMsg : String := "Failed to fetch history"

/-- Action fetchHistory(start, length): sets loading and clears error; on
resolution, if start is zero the collection is replaced by the page,
otherwise the page is appended to the existing collection; totalTasks is
set from recordsTotal; on rejection the fixed message is set; the finally
step clears loading. -/
def fetchHistory (start length : Int)
    (res : Except String (PageResponse HistoryTask)) (s : HistoryState) :
    HistoryState :=
  let _ := length
  let s1 : HistoryState := { s with loading := true, error := none }
  let s2 : HistoryState :=
    match res with
    | .ok r =>
        let newTasks := r.data.getD []
        if start = 0 then
          { s1 with tasks := newTasks, totalTasks := r.recordsTotal.getD 0 }
        else
          { s1 with tasks := s1.tasks ++ newTasks,
                    totalTasks := r.recordsTotal.getD 0 }
    | .error _ => { s1 with error := some historyFetchErrMsg }
  { s2 with loading := false }

/-- Bootstrap lifecycle state of the app store. -/
inductive BootStatus where
  | idle
  | loading
  | ready
  | error
  deriving DecidableEq

/-- State of the app store together with the three domain stores it
bootstraps. -/
structure AppState where
  boot : BootStatus
  bootErrMsg : String
  workersStore : WorkersState
  queueStore : QueueState
  historyStore : HistoryState
  deriving DecidableEq

/-- Action init() of the app store: a call while loading or ready is a
no-op; otherwise boot becomes loading, the three store fetches run, and
boot becomes ready. Each store fetch catches its own REST rejection (see
fetchWorkers, fetchQueue, fetchHistory, whose embeddings are total for
exactly that reason), so the awaited Promise.all in the source never
rejects on a fetch failure and the catch branch of init that would set
boot to error is unreachable on that path; the embedding therefore always
ends the non-guarded path at ready. The fetch outcomes are passed in as
arguments. -/
def init (rw : Except String WorkersResponse)
    (rq : Except String (PageResponse QueueTask))
    (rh : Except String (PageResponse HistoryTask))
    (s : AppState) : AppState :=
  if s.boot = BootStatus.loading ∨ s.boot = BootStatus.ready then s
  else
    let s1 : AppState := { s with boot := BootStatus.loading, bootErrMsg := "" }
    let s2 : AppState :=
      { s1 with workersStore := fetchWorkers rw s1.workersStore,
                queueStore := fetchQueue 0 50 rq s1.queueStore,
                historyStore := fetchHistory 0 50 rh s1.historyStore }
    { s2 with boot := BootStatus.ready }

/-- Action reset() of the app store. -/
def appReset (s : AppState) : AppState :=
  { s with boot := BootStatus.idle, bootErrMsg := "" }

/-- Readiness of the client socket slot (this.ws): no socket allocated,
connecting (opened but onopen not yet fired), open, or closing after a
close() call whose onclose has not yet fired. The embedding tracks a
single socket. -/
inductive SockState where
  | noSocket
  | connecting
  | opened
  | closing
  deriving DecidableEq

/-- State of the WebSocketClient. liveTimers models the browser timer
queue restricted to this client: ids of timers scheduled by setTimeout
and neither cleared nor fired yet, so that clearTimeout and a stale
reconnectTimer field can be distinguished; sent records the command names
written to the socket, oldest first. activeStreams mirrors the JS Set:
insertion order, duplicate-free by construction. -/
structure WSClient where
  sock : SockState
  isManualClose : Bool
  reconnectTimer : Option Nat
  liveTimers : List Nat
  nextTimerId : Nat
  activeStreams : List String
  sent : List String
  deriving DecidableEq

/-- The freshly constructed module-level client. -/
def initClient : WSClient :=
  { sock := SockState.noSocket
    isManualClose := false
    reconnectTimer := none
    liveTimers := []
    nextTimerId := 0
    activeStreams := []
    sent := [] }

/-- sendCommand: writes the frame when the socket is open, otherwise logs
a warning and drops the command. -/
def sendCommand (command : String) (c : WSClient) : WSClient :=
  if c.sock = SockState.opened then { c with sent := c.sent ++ [command] }
  else c

/-- startStream(name): a no-op when the name is already desired; else the
name is added to the desired set and a start command is sent. -/
def startStream (streamName : String) (c : WSClient) : WSClient :=
  if streamName ∈ c.activeStreams then c
  else
    sendCommand ("start_" ++ streamName)
      { c with activeStreams := c.activeStreams ++ [streamName] }

/-- stopStream(name): removes the name from the desired set and sends a
stop command (dropped when not connected). -/
def stopStream (streamName : String) (c : WSClient) : WSClient :=
  sendCommand ("stop_" ++ streamName)
    { c with activeStreams := c.activeStreams.filter (fun n => n != streamName) }

/-- scheduleReconnect: a no-op while a reconnect timer is pending; else a
fresh timer is scheduled and remembered in the reconnectTimer field. -/
def scheduleReconnect (c : WSClient) : WSClient :=
  if c.reconnectTimer.isSome then c
  else
    { c with reconnectTimer := some c.nextTimerId
             liveTimers := c.liveTimers ++ [c.nextTimerId]
             nextTimerId := c.nextTimerId + 1 }

/-- Clearing of the pending reconnect timer (the clearTimeout pattern in
onopen and disconnect): cancels the remembered timer and nulls the
field. -/
def clearReconnectTimer (c : WSClient) : WSClient :=
  match c.reconnectTimer with
  | some id =>
      { c with reconnectTimer := none
               liveTimers := c.liveTimers.filter (fun t => t != id) }
  | none => c

/-- restartStreams: sends a start command for every desired stream, in
set iteration (insertion) order. -/
def restartStreams (c : WSClient) : WSClient :=
  c.activeStreams.foldl (fun acc stream => sendCommand ("start_" ++ stream) acc) c

/-- stopAllStreams: sends a stop command for every desired stream, then
clears the desired set. -/
def stopAllStreams (c : WSClient) : WSClient :=
  let c1 := c.activeStreams.foldl
    (fun acc stream => sendCommand ("stop_" ++ stream) acc) c
  { c1 with activeStreams := [] }

/-- connect(): a no-op when the socket is open; otherwise clears the
manual-close flag and allocates a new socket (connecting). -/
def connect (c : WSClient) : WSClient :=
  if c.sock = SockState.opened then c
  else { c with isManualClose := false, sock := SockState.connecting }

/-- disconnect(): sets the manual-close flag, cancels any pending
reconnect timer, stops all streams (best-effort sends) and closes the
socket. -/
def disconnect (c : WSClient) : WSClient :=
  let c1 := clearReconnectTimer { c with isManualClose := true }
  let c2 := stopAllStreams c1
  { c2 with sock := if c2.sock = SockState.noSocket then SockState.noSocket
                    else SockState.closing }

/-- Body of the onopen callback: the socket is now open; connection
handlers run, any pending reconnect timer is cleared, and the desired
streams are restarted. -/
def onOpenEvent (c : WSClient) : WSClient :=
  restartStreams (clearReconnectTimer { c with sock := SockState.opened })

/-- Body of the onclose callback: the socket is gone; unless the close
was manual, one reconnect attempt is scheduled. -/
def onCloseEvent (c : WSClient) : WSClient :=
  let c1 := { c with sock := SockState.noSocket }
  if c1.isManualClose then c1 else scheduleReconnect c1

/-- Firing of the oldest live timer: the browser removes it from the
queue and runs the setTimeout callback, which nulls the reconnectTimer
field and calls connect(). With no live timer nothing happens. -/
def timerFireEvent (c : WSClient) : WSClient :=
  match c.liveTimers with
  | [] => c
  | _ :: rest => connect { c with liveTimers := rest, reconnectTimer := none }

/-- Events driving the client: the four public entry points plus the
three environment callbacks. -/
inductive WSEvent where
  | userConnect
  | userDisconnect
  | userStart (streamName : String)
  | userStop (streamName : String)
  | sockOpened
  | sockClosed
  | timerFired
  deriving DecidableEq

/-- Environment enabling of an event: onopen fires only on a connecting
socket, onclose only while some socket exists, a timer only while one is
live; user calls are always possible. -/
def eventEnabled (e : WSEvent) (c : WSClient) : Bool :=
  match e with
  | WSEvent.sockOpened => c.sock == SockState.connecting
  | WSEvent.sockClosed => c.sock != SockState.noSocket
  | WSEvent.timerFired => !c.liveTimers.isEmpty
  | _ => true

/-- One step of the client under an event. -/
def step (e : WSEvent) (c : WSClient) : WSClient :=
  match e with
  | WSEvent.userConnect => connect c
  | WSEvent.userDisconnect => disconnect c
  | WSEvent.userStart n => startStream n c
  | WSEvent.userStop n => stopStream n c
  | WSEvent.sockOpened => onOpenEvent c
  | WSEvent.sockClosed => onCloseEvent c
  | WSEvent.timerFired => timerFireEvent c

/-- Guarded step: a disabled event leaves the state unchanged. -/
def stepIfEnabled (c : WSClient) (e : WSEvent) : WSClient :=
  if eventEnabled e c then step e c else c

/-- Run of the client from a state under a sequence of events. -/
def run (events : List WSEvent) (c : WSClient) : WSClient :=
  events.foldl stepIfEnabled c

/-- Well-formedness invariant of the client: the live browser timers are
exactly the timer remembered in reconnectTimer, and the desired-stream
set has no duplicates. -/
def ClientWF (c : WSClient) : Prop :=
  c.liveTimers = c.reconnectTimer.toList ∧ c.activeStreams.Nodup

/-- Cold-start app state: boot idle, all stores empty. -/
def appStart : AppState :=
  { boot := BootStatus.idle
    bootErrMsg := ""
    workersStore := { workers := [], loading := false, error := none }
    queueStore := { tasks := [], totalTasks := 0, loading := false, error := none }
    historyStore := { tasks := [], totalTasks := 0, loading := false, error := none } }

/-- Bootstrap outcome from the cold-start state when the workers snapshot
fetch rejects while the queue and history fetches succeed with empty
pages. -/
def bootWithWorkersFetchFailed : AppState :=
  init (Except.error ("network error"))
    (Except.ok { data := some [], recordsTotal := some 0 })
    (Except.ok { data := some [], recordsTotal := some 0 }) appStart

/-- C1: with one REST fetch failing during bootstrap, init() still ends
with boot = ready and only a store-local error message, instead of
transitioning the lifecycle to the error state: the rejection is consumed
inside the store fetch, so the catch in init never runs for it. -/
theorem init_fetch_failure_still_ready :
    bootWithWorkersFetchFailed.boot = BootStatus.ready ∧
    bootWithWorkersFetchFailed.workersStore.error = some workersFetchErrMsg ∧
    BootStatus.ready ≠ BootStatus.error := by decide

/-- Sample queue task with a given id. -/
def sampleQueueTask (n : Int) : QueueTask :=
  { id := n, library_id := 1, abspath := "/media/a.mkv", priority := 0,
    created_at := "2024-01-01" }

/-- Queue store holding the first fetched page: one task, server total 2. -/
def queueFirstPage : QueueState :=
  { tasks := [sampleQueueTask 1], totalTasks := 2, loading := false,
    error := none }

/-- C2 counterexample: a successful queue fetch with start = 1 replaces
the collection with the fetched page instead of appending it to the
existing one. -/
theorem fetchQueue_second_page_replaces :
    (fetchQueue 1 50
      (Except.ok { data := some [sampleQueueTask 2], recordsTotal := some 2 })
      queueFirstPage).tasks = [sampleQueueTask 2] ∧
    [sampleQueueTask 2] ≠ queueFirstPage.tasks ++ [sampleQueueTask 2] := by
  decide

/-- C2 amended: on a successful fetch the history store replaces its
collection when start = 0 and appends otherwise, while the queue store
always replaces its collection with the fetched page, whatever start
is. -/
theorem fetch_pagination_queue_replaces_history_appends :
    ∀ (start length : Int) (pq : PageResponse QueueTask)
      (ph : PageResponse HistoryTask) (sq : QueueState) (sh : HistoryState),
      (fetchQueue start length (Except.ok pq) sq).tasks = pq.data.getD [] ∧
      (fetchHistory start length (Except.ok ph) sh).tasks =
        (if start = 0 then ph.data.getD [] else sh.tasks ++ ph.data.getD []) := by
  intro start length pq ph sq sh
  refine ⟨rfl, ?_⟩
  by_cases h : start = 0 <;> simp [fetchHistory, h]

/-- Queue store holding exactly the task with id 42. -/
def queueWith42 : QueueState :=
  { tasks := [sampleQueueTask 42], totalTasks := 1, loading := false,
    error := none }

/-- C3 counterexample: when the backend DELETE rejects, the task with id
42 is still present and totalTasks untouched, so no local removal was
applied before (or despite) the failed backend call — deleteTask is not
optimistic. -/
theorem deleteTask_failure_leaves_task :
    (deleteTask (Except.error ("HTTP 500")) 42 queueWith42).tasks
      = [sampleQueueTask 42] ∧
    (deleteTask (Except.error ("HTTP 500")) 42 queueWith42).totalTasks = 1 ∧
    queueWith42.tasks.filter (fun t => t.id != 42) ≠ queueWith42.tasks := by
  decide

/-- C3 amended: deleteTask applies the removal and the decrement of
totalTasks only after the backend call succeeds; when the call fails the
collection and the count are unchanged and the error slot is set to the
fixed message. -/
theorem deleteTask_applies_only_on_success :
    ∀ (s : QueueState) (taskId : Int) (m : String),
      (deleteTask (Except.ok ()) taskId s).tasks
        = s.tasks.filter (fun t => t.id != taskId) ∧
      (deleteTask (Except.ok ()) taskId s).totalTasks = s.totalTasks - 1 ∧
      (deleteTask (Except.error m) taskId s).tasks = s.tasks ∧
      (deleteTask (Except.error m) taskId s).totalTasks = s.totalTasks ∧
      (deleteTask (Except.error m) taskId s).error = some deleteTaskErrMsg := by
  intro s taskId m
  exact ⟨rfl, rfl, rfl, rfl, rfl⟩

/-- C10: whenever the DELETE succeeds, totalTasks drops by exactly 1
regardless of whether any task with that id is present; when none is, the
collection is unchanged while the count still drops (so the count is not
clamped at 0 or at the collection length). -/
theorem deleteTask_success_decrements_unconditionally :
    ∀ (s : QueueState) (taskId : Int),
      (deleteTask (Except.ok ()) taskId s).totalTasks = s.totalTasks - 1 ∧
      ((∀ t ∈ s.tasks, t.id ≠ taskId) →
        (deleteTask (Except.ok ()) taskId s).tasks = s.tasks) := by
  intro s taskId
  refine ⟨rfl, fun h => ?_⟩
  show s.tasks.filter (fun t => t.id != taskId) = s.tasks
  rw [List.filter_eq_self]
  intro t ht
  simpa [bne_iff_ne] using h t ht

/-- Queue store with no tasks and server total 0. -/
def queueEmptyZero : QueueState :=
  { tasks := [], totalTasks := 0, loading := false, error := none }

/-- Witness for C10: deleting id 7 from the empty queue store drives
totalTasks to -1 and leaves the empty collection unchanged. -/
theorem deleteTask_success_decrements_witness :
    (deleteTask (Except.ok ()) 7 queueEmptyZero).totalTasks = -1 ∧
    (deleteTask (Except.ok ()) 7 queueEmptyZero).tasks = [] := by
  have h := deleteTask_success_decrements_unconditionally queueEmptyZero 7
  exact ⟨h.1, h.2 (by intro t ht; cases ht)⟩

/-- Worker that is both paused and idle. -/
def workerBoth : Worker :=
  { id := "w1", name := "w1", idle := true, paused := true,
    current_file := none, current_task := none, start_time := none }

/-- C4 counterexample: a worker that is both paused and idle appears in
the idle partition as well as in the paused one (idleWorkers filters on
the idle flag alone), refuting that such a worker is only in the paused
partition and never in idle. -/
theorem paused_idle_worker_in_both_partitions :
    idleWorkers [workerBoth] = [workerBoth] ∧
    pausedWorkers [workerBoth] = [workerBoth] ∧
    activeWorkers [workerBoth] = [] := by decide

/-- C4 amended: a worker not simultaneously idle and paused belongs to
exactly one of the three partitions; a worker that is both belongs to the
idle and the paused partitions at once (never to active); the paused-over-
idle precedence holds only in the derived statusText presentation. -/
theorem worker_partitions_characterization :
    ∀ (ws : List Worker) (w : Worker), w ∈ ws →
      (¬(w.idle = true ∧ w.paused = true) →
        ((w ∈ activeWorkers ws ∧ w ∉ idleWorkers ws ∧ w ∉ pausedWorkers ws) ∨
         (w ∉ activeWorkers ws ∧ w ∈ idleWorkers ws ∧ w ∉ pausedWorkers ws) ∨
         (w ∉ activeWorkers ws ∧ w ∉ idleWorkers ws ∧ w ∈ pausedWorkers ws))) ∧
      ((w.idle = true ∧ w.paused = true) →
        (w ∈ idleWorkers ws ∧ w ∈ pausedWorkers ws ∧ w ∉ activeWorkers ws)) ∧
      (w.paused = true → statusText w = "Paused") := by
  intro ws w hw
  refine ⟨?_, ?_, ?_⟩
  · intro hnot
    cases hi : w.idle <;> cases hp : w.paused
    · exact Or.inl (by
        simp [activeWorkers, idleWorkers, pausedWorkers, List.mem_filter,
          hw, hi, hp])
    · exact Or.inr (Or.inr (by
        simp [activeWorkers, idleWorkers, pausedWorkers, List.mem_filter,
          hw, hi, hp]))
    · exact Or.inr (Or.inl (by
        simp [activeWorkers, idleWorkers, pausedWorkers, List.mem_filter,
          hw, hi, hp]))
    · exact absurd ⟨hi, hp⟩ hnot
  · intro hboth
    simp [activeWorkers, idleWorkers, pausedWorkers, List.mem_filter,
      hw, hboth.1, hboth.2]
  · intro hp
    simp [statusText, hp]

/-- Witness for the amended C4 at the concrete both-idle-and-paused
worker: it sits in both the idle and paused partitions and shows the
Paused status text. -/
theorem worker_partitions_characterization_witness :
    (workerBoth ∈ idleWorkers [workerBoth] ∧
     workerBoth ∈ pausedWorkers [workerBoth] ∧
     workerBoth ∉ activeWorkers [workerBoth]) ∧
    statusText workerBoth = "Paused" := by
  have h := worker_partitions_characterization [workerBoth] workerBoth
    (by simp)
  exact ⟨h.2.1 ⟨rfl, rfl⟩, h.2.2 rfl⟩

/-- C8: on a fetch rejection every store sets its fixed domain message and
leaves its collection and total untouched, and on every outcome the
finally step leaves loading cleared. -/
theorem fetch_failure_sets_error_clears_loading :
    ∀ (m : String) (sw : WorkersState) (sq : QueueState) (sh : HistoryState)
      (start length : Int),
      ((fetchWorkers (Except.error m) sw).error = some workersFetchErrMsg ∧
       (fetchWorkers (Except.error m) sw).workers = sw.workers ∧
       (∀ r, (fetchWorkers r sw).loading = false)) ∧
      ((fetchQueue start length (Except.error m) sq).error
          = some queueFetchErrMsg ∧
       (fetchQueue start length (Except.error m) sq).tasks = sq.tasks ∧
       (fetchQueue start length (Except.error m) sq).totalTasks
          = sq.totalTasks ∧
       (∀ r, (fetchQueue start length r sq).loading = false)) ∧
      ((fetchHistory start length (Except.error m) sh).error
          = some historyFetchErrMsg ∧
       (fetchHistory start length (Except.error m) sh).tasks = sh.tasks ∧
       (fetchHistory start length (Except.error m) sh).totalTasks
          = sh.totalTasks ∧
       (∀ r, (fetchHistory start length r sh).loading = false)) := by
  intro m sw sq sh start length
  refine ⟨⟨rfl, rfl, fun r => ?_⟩, ⟨rfl, rfl, rfl, fun r => ?_⟩,
    ⟨rfl, rfl, rfl, fun r => ?_⟩⟩
  · cases r <;> rfl
  · cases r <;> rfl
  · cases r <;> rfl

/-- C9: a routed push message that lacks the expected payload field (no
workers field for the workers store, no pending_tasks_info field for the
queue store) leaves the receiving store fully unchanged. -/
theorem push_without_payload_field_is_noop :
    ∀ (b1 b2 : Bool) (sw : WorkersState) (sq : QueueState),
      workersPushHandler { success := b1, workers := none } sw = sw ∧
      queuePushHandler { success := b2, pending_tasks_info := none } sq = sq := by
  intro b1 b2 sw sq
  exact ⟨rfl, rfl⟩

/-- Closed form of sendCommand: only the sent log changes, and only while
the socket is open. -/
theorem sendCommand_eq (cmd : String) (c : WSClient) :
    sendCommand cmd c
      = { c with sent := c.sent ++
          (if c.sock = SockState.opened then [cmd] else []) } := by
  unfold sendCommand
  split
  · rfl
  · rw [List.append_nil]

/-- Closed form of a fold of sendCommand over a list of stream names:
only the sent log changes, receiving one command per name in order while
the socket is open and nothing otherwise. -/
theorem foldl_sendCommand_eq (g : String → String) :
    ∀ (l : List String) (c : WSClient),
      l.foldl (fun acc s => sendCommand (g s) acc) c
        = { c with sent := c.sent ++
            (if c.sock = SockState.opened then l.map g else []) } := by
  intro l
  induction l with
  | nil =>
      intro c
      simp
  | cons a rest ih =>
      intro c
      simp only [List.foldl_cons]
      rw [sendCommand_eq, ih]
      by_cases h : c.sock = SockState.opened <;> simp [h]

/-- Closed form of restartStreams. -/
theorem restartStreams_eq (c : WSClient) :
    restartStreams c
      = { c with sent := c.sent ++
          (if c.sock = SockState.opened then
            c.activeStreams.map (fun s => "start_" ++ s) else []) } :=
  foldl_sendCommand_eq (fun s => "start_" ++ s) c.activeStreams c

/-- Closed form of stopAllStreams. -/
theorem stopAllStreams_eq (c : WSClient) :
    stopAllStreams c
      = { c with activeStreams := []
                 sent := c.sent ++
                   (if c.sock = SockState.opened then
                     c.activeStreams.map (fun s => "stop_" ++ s) else []) } := by
  unfold stopAllStreams
  rw [foldl_sendCommand_eq (fun s => "stop_" ++ s) c.activeStreams c]

/-- Membership in the desired set after startStream. -/
theorem mem_startStream_activeStreams (n x : String) (c : WSClient) :
    x ∈ (startStream n c).activeStreams ↔ x = n ∨ x ∈ c.activeStreams := by
  unfold startStream
  by_cases h : n ∈ c.activeStreams
  · rw [if_pos h]
    constructor
    · exact Or.inr
    · rintro (rfl | hx)
      · exact h
      · exact hx
  · rw [if_neg h, sendCommand_eq]
    simp [List.mem_append, or_comm]

/-- Membership in the desired set after stopStream. -/
theorem mem_stopStream_activeStreams (n x : String) (c : WSClient) :
    x ∈ (stopStream n c).activeStreams ↔ x ∈ c.activeStreams ∧ x ≠ n := by
  unfold stopStream
  rw [sendCommand_eq]
  simp [List.mem_filter]

/-- Desired set after startStream, as a finite set. -/
theorem startStream_toFinset (n : String) (c : WSClient) :
    (startStream n c).activeStreams.toFinset
      = insert n c.activeStreams.toFinset := by
  ext x
  simp [mem_startStream_activeStreams, List.mem_toFinset]

/-- Desired set after stopStream, as a finite set. -/
theorem stopStream_toFinset (n : String) (c : WSClient) :
    (stopStream n c).activeStreams.toFinset
      = c.activeStreams.toFinset.erase n := by
  ext x
  simp [mem_stopStream_activeStreams, List.mem_toFinset, Finset.mem_erase,
    and_comm]

/-- User-level stream operation: a startStream or stopStream call. -/
inductive StreamOp where
  | start (streamName : String)
  | stop (streamName : String)
  deriving DecidableEq

/-- Sequential application of a list of stream calls to the client. -/
def applyStreamOps (ops : List StreamOp) (c : WSClient) : WSClient :=
  ops.foldl (fun acc op =>
    match op with
    | StreamOp.start n => startStream n acc
    | StreamOp.stop n => stopStream n acc) c

/-- Modelled from the spec: the desired-stream set implied by a call
sequence when each startStream is read as an idempotent set-add and each
stopStream as a set-remove. -/
def specStreamSet (ops : List StreamOp) (s : Finset String) : Finset String :=
  ops.foldl (fun acc op =>
    match op with
    | StreamOp.start n => insert n acc
    | StreamOp.stop n => acc.erase n) s

/-- C5: for every sequence of startStream and stopStream calls, the
desired-stream set afterwards is exactly the set computed by the
idempotent set-add and set-remove reading of the calls (duplicate starts
and stops change nothing, as insert and erase absorb them). -/
theorem stream_ops_set_semantics :
    ∀ (ops : List StreamOp) (c : WSClient),
      (applyStreamOps ops c).activeStreams.toFinset
        = specStreamSet ops c.activeStreams.toFinset := by
  intro ops
  induction ops with
  | nil => intro c; rfl
  | cons op rest ih =>
      intro c
      cases op with
      | start n =>
          have h1 : applyStreamOps (StreamOp.start n :: rest) c
              = applyStreamOps rest (startStream n c) := rfl
          have h2 : specStreamSet (StreamOp.start n :: rest)
                c.activeStreams.toFinset
              = specStreamSet rest (insert n c.activeStreams.toFinset) := rfl
          rw [h1, h2, ih (startStream n c), startStream_toFinset]
      | stop n =>
          have h1 : applyStreamOps (StreamOp.stop n :: rest) c
              = applyStreamOps rest (stopStream n c) := rfl
          have h2 : specStreamSet (StreamOp.stop n :: rest)
                c.activeStreams.toFinset
              = specStreamSet rest (c.activeStreams.toFinset.erase n) := rfl
          rw [h1, h2, ih (stopStream n c), stopStream_toFinset]

/-- Fields of the client untouched by clearReconnectTimer. -/
theorem clearReconnectTimer_preserves (c : WSClient) :
    (clearReconnectTimer c).sock = c.sock ∧
    (clearReconnectTimer c).isManualClose = c.isManualClose ∧
    (clearReconnectTimer c).activeStreams = c.activeStreams ∧
    (clearReconnectTimer c).sent = c.sent ∧
    (clearReconnectTimer c).nextTimerId = c.nextTimerId := by
  unfold clearReconnectTimer
  cases c.reconnectTimer <;> exact ⟨rfl, rfl, rfl, rfl, rfl⟩

/-- Under the timer invariant, clearReconnectTimer leaves no pending
timer at all. -/
theorem clearReconnectTimer_of_WF (c : WSClient)
    (h : c.liveTimers = c.reconnectTimer.toList) :
    (clearReconnectTimer c).reconnectTimer = none ∧
    (clearReconnectTimer c).liveTimers = [] := by
  unfold clearReconnectTimer
  cases hr : c.reconnectTimer with
  | none =>
      refine ⟨hr, ?_⟩
      rw [h, hr]
      rfl
  | some id =>
      refine ⟨rfl, ?_⟩
      show c.liveTimers.filter (fun t => t != id) = []
      rw [h, hr]
      simp

/-- Fields of the client untouched by stopAllStreams. -/
theorem stopAllStreams_preserves (c : WSClient) :
    (stopAllStreams c).sock = c.sock ∧
    (stopAllStreams c).isManualClose = c.isManualClose ∧
    (stopAllStreams c).reconnectTimer = c.reconnectTimer ∧
    (stopAllStreams c).liveTimers = c.liveTimers ∧
    (stopAllStreams c).nextTimerId = c.nextTimerId := by
  rw [stopAllStreams_eq]
  exact ⟨rfl, rfl, rfl, rfl, rfl⟩

/-- Under the timer invariant, disconnect() cancels the pending reconnect
timer, empties the desired-stream set and records the manual close. -/
theorem disconnect_fields (c : WSClient)
    (h : c.liveTimers = c.reconnectTimer.toList) :
    (disconnect c).reconnectTimer = none ∧
    (disconnect c).liveTimers = [] ∧
    (disconnect c).activeStreams = [] ∧
    (disconnect c).isManualClose = true := by
  have h1 := clearReconnectTimer_of_WF { c with isManualClose := true } h
  have h2 := clearReconnectTimer_preserves { c with isManualClose := true }
  have h3 := stopAllStreams_preserves
    (clearReconnectTimer { c with isManualClose := true })
  have h4 := stopAllStreams_eq
    (clearReconnectTimer { c with isManualClose := true })
  refine ⟨?_, ?_, ?_, ?_⟩
  · show (stopAllStreams
        (clearReconnectTimer { c with isManualClose := true })).reconnectTimer
      = none
    rw [h3.2.2.1, h1.1]
  · show (stopAllStreams
        (clearReconnectTimer { c with isManualClose := true })).liveTimers = []
    rw [h3.2.2.2.1, h1.2]
  · show (stopAllStreams
        (clearReconnectTimer { c with isManualClose := true })).activeStreams
      = []
    rw [h4]
  · show (stopAllStreams
        (clearReconnectTimer { c with isManualClose := true })).isManualClose
      = true
    rw [h3.2.1, h2.2.1]

/-- scheduleReconnect preserves the client invariant. -/
theorem scheduleReconnect_WF (c : WSClient) (h : ClientWF c) :
    ClientWF (scheduleReconnect c) := by
  obtain ⟨h1, h2⟩ := h
  unfold scheduleReconnect
  split
  · exact ⟨h1, h2⟩
  · next hnone =>
      have hn : c.reconnectTimer = none := by
        cases hr : c.reconnectTimer with
        | none => rfl
        | some v => rw [hr] at hnone; simp at hnone
      refine ⟨?_, h2⟩
      show c.liveTimers ++ [c.nextTimerId] = (some c.nextTimerId).toList
      rw [h1, hn]
      rfl

/-- Every event step preserves the client invariant. -/
theorem stepIfEnabled_WF (e : WSEvent) (c : WSClient) (h : ClientWF c) :
    ClientWF (stepIfEnabled c e) := by
  obtain ⟨h1, h2⟩ := h
  unfold stepIfEnabled
  split
  · cases e with
    | userConnect =>
        show ClientWF (connect c)
        unfold connect
        split
        · exact ⟨h1, h2⟩
        · exact ⟨h1, h2⟩
    | userDisconnect =>
        show ClientWF (disconnect c)
        have hd := disconnect_fields c h1
        constructor
        · rw [hd.2.1, hd.1]
          rfl
        · rw [hd.2.2.1]
          exact List.nodup_nil
    | userStart n =>
        show ClientWF (startStream n c)
        unfold startStream
        split
        · exact ⟨h1, h2⟩
        · next hmem =>
            rw [sendCommand_eq]
            refine ⟨h1, ?_⟩
            show (c.activeStreams ++ [n]).Nodup
            simp [List.nodup_append, h2, hmem]
    | userStop n =>
        show ClientWF (stopStream n c)
        unfold stopStream
        rw [sendCommand_eq]
        exact ⟨h1, h2.filter _⟩
    | sockOpened =>
        show ClientWF (onOpenEvent c)
        unfold onOpenEvent
        rw [restartStreams_eq]
        have hcw := clearReconnectTimer_of_WF
          { c with sock := SockState.opened } h1
        constructor
        · show (clearReconnectTimer { c with sock := SockState.opened }).liveTimers
            = (clearReconnectTimer
                { c with sock := SockState.opened }).reconnectTimer.toList
          rw [hcw.1, hcw.2]
          rfl
        · show (clearReconnectTimer
              { c with sock := SockState.opened }).activeStreams.Nodup
          rw [(clearReconnectTimer_preserves _).2.2.1]
          exact h2
    | sockClosed =>
        show ClientWF (onCloseEvent c)
        simp only [onCloseEvent]
        split
        · exact ⟨h1, h2⟩
        · exact scheduleReconnect_WF _ ⟨h1, h2⟩
    | timerFired =>
        show ClientWF (timerFireEvent c)
        unfold timerFireEvent
        split
        · exact ⟨h1, h2⟩
        · rename_i t rest hl
          have hrest : rest = [] := by
            cases hr : c.reconnectTimer with
            | none =>
                rw [hr] at h1
                rw [hl] at h1
                exact absurd h1 (by simp)
            | some id =>
                rw [hr] at h1
                rw [hl] at h1
                injection h1 with ha hb
          subst hrest
          have hwf : ClientWF
              { c with liveTimers := [], reconnectTimer := none } := ⟨rfl, h2⟩
          unfold connect
          split
          · exact hwf
          · exact ⟨hwf.1, hwf.2⟩
  · exact ⟨h1, h2⟩

/-- The freshly constructed client satisfies the invariant. -/
theorem clientWF_init : ClientWF initClient :=
  ⟨rfl, List.nodup_nil⟩

/-- The invariant holds along every run. -/
theorem run_WF (events : List WSEvent) :
    ∀ (c : WSClient), ClientWF c → ClientWF (run events c) := by
  induction events with
  | nil => intro c h; exact h
  | cons e rest ih =>
      intro c h
      exact ih (stepIfEnabled c e) (stepIfEnabled_WF e c h)

/-- C6: in every run of the client at most one reconnect timer is ever
pending; a non-manual close with no timer pending schedules exactly one
reconnect attempt; scheduling while one is pending is a no-op; and
disconnect() cancels the pending timer, after which a timer firing is a
no-op, so no reconnect occurs. -/
theorem reconnect_timer_protocol :
    (∀ events : List WSEvent,
      (run events initClient).liveTimers.length ≤ 1) ∧
    (∀ c : WSClient, ClientWF c →
      ((c.isManualClose = false → c.reconnectTimer = none →
          (onCloseEvent c).liveTimers.length = 1 ∧
          (onCloseEvent c).reconnectTimer.isSome = true) ∧
       (c.reconnectTimer.isSome = true → scheduleReconnect c = c) ∧
       ((disconnect c).reconnectTimer = none ∧
        (disconnect c).liveTimers = [] ∧
        timerFireEvent (disconnect c) = disconnect c))) := by
  constructor
  · intro events
    have h := run_WF events initClient clientWF_init
    rw [h.1]
    cases (run events initClient).reconnectTimer <;> simp
  · intro c hwf
    obtain ⟨h1, h2⟩ := hwf
    refine ⟨?_, ?_, ?_⟩
    · intro hm hn
      simp only [onCloseEvent]
      rw [if_neg (by simp [hm])]
      unfold scheduleReconnect
      rw [if_neg (by simp [hn])]
      constructor
      · show (c.liveTimers ++ [c.nextTimerId]).length = 1
        rw [h1, hn]
        rfl
      · rfl
    · intro hs
      unfold scheduleReconnect
      rw [if_pos hs]
    · have hd := disconnect_fields c h1
      refine ⟨hd.1, hd.2.1, ?_⟩
      unfold timerFireEvent
      split
      · rfl
      · rename_i t rest hl
        rw [hd.2.1] at hl
        exact absurd hl (by simp)

/-- Client with an open socket, no pending reconnect timer, automatic
reconnect armed. -/
def clientOpenIdle : WSClient :=
  { sock := SockState.opened
    isManualClose := false
    reconnectTimer := none
    liveTimers := []
    nextTimerId := 0
    activeStreams := []
    sent := [] }

/-- Client holding one pending reconnect timer after a dropped
connection. -/
def clientWithTimer : WSClient :=
  { sock := SockState.noSocket
    isManualClose := false
    reconnectTimer := some 0
    liveTimers := [0]
    nextTimerId := 1
    activeStreams := []
    sent := [] }

/-- Witness for C6 at concrete states: one run keeps at most one pending
timer; an unplanned close of the open idle client leaves exactly one; a
duplicate scheduling on the timed client changes nothing; disconnecting
the timed client cancels its timer and makes the later firing a no-op. -/
theorem reconnect_timer_protocol_witness :
    (run [WSEvent.userConnect, WSEvent.sockClosed]
      initClient).liveTimers.length ≤ 1 ∧
    (onCloseEvent clientOpenIdle).liveTimers.length = 1 ∧
    scheduleReconnect clientWithTimer = clientWithTimer ∧
    (disconnect clientWithTimer).liveTimers = [] ∧
    timerFireEvent (disconnect clientWithTimer) = disconnect clientWithTimer := by
  have h := reconnect_timer_protocol
  have hopen := h.2 clientOpenIdle ⟨rfl, List.nodup_nil⟩
  have htimed := h.2 clientWithTimer ⟨rfl, List.nodup_nil⟩
  exact ⟨h.1 [WSEvent.userConnect, WSEvent.sockClosed],
    (hopen.1 rfl rfl).1, htimed.2.1 rfl, htimed.2.2.2.1, htimed.2.2.2.2⟩

/-- Sent log of the onopen handler: the desired streams are replayed as
start commands appended to the log, in set order. -/
theorem onOpenEvent_sent (c : WSClient) :
    (onOpenEvent c).sent
      = c.sent ++ c.activeStreams.map (fun s => "start_" ++ s) := by
  have hp := clearReconnectTimer_preserves { c with sock := SockState.opened }
  unfold onOpenEvent
  rw [restartStreams_eq]
  show (clearReconnectTimer { c with sock := SockState.opened }).sent ++
      (if (clearReconnectTimer { c with sock := SockState.opened }).sock
          = SockState.opened
       then (clearReconnectTimer
          { c with sock := SockState.opened }).activeStreams.map
            (fun s => "start_" ++ s)
       else [])
    = c.sent ++ c.activeStreams.map (fun s => "start_" ++ s)
  rw [hp.2.2.2.1, hp.2.2.1, hp.1]
  simp

/-- Injectivity of stream-start command names. -/
theorem startCmd_injective :
    Function.Injective (fun s : String => "start_" ++ s) := by
  intro a b hab
  have h2 := congrArg String.data hab
  simp only [String.data_append] at h2
  exact String.ext (List.append_cancel_left h2)

/-- C7: when the socket (re)opens, the onopen handler appends to the sent
log exactly one start command per currently desired stream, and no start
command for any stream not currently desired — in particular none for a
stream stopped before the reconnect, since stopStream removed it from the
desired set. -/
theorem reconnect_replays_desired_streams :
    ∀ (c : WSClient), c.activeStreams.Nodup →
      ((onOpenEvent c).sent
          = c.sent ++ c.activeStreams.map (fun s => "start_" ++ s)) ∧
      (∀ n, n ∈ c.activeStreams →
        (c.activeStreams.map (fun s => "start_" ++ s)).count ("start_" ++ n)
          = 1) ∧
      (∀ n, n ∉ c.activeStreams →
        (c.activeStreams.map (fun s => "start_" ++ s)).count ("start_" ++ n)
          = 0) := by
  intro c hnd
  refine ⟨onOpenEvent_sent c, ?_, ?_⟩
  · intro n hn
    rw [show (c.activeStreams.map (fun s => "start_" ++ s)).count ("start_" ++ n)
        = c.activeStreams.count n from
      List.count_map_of_injective c.activeStreams _ startCmd_injective n]
    exact List.count_eq_one_of_mem hnd hn
  · intro n hn
    rw [show (c.activeStreams.map (fun s => "start_" ++ s)).count ("start_" ++ n)
        = c.activeStreams.count n from
      List.count_map_of_injective c.activeStreams _ startCmd_injective n]
    exact List.count_eq_zero.mpr hn

/-- Client about to complete a reconnection: socket connecting, two
desired streams, while completed_tasks_info was stopped earlier and is no
longer desired. -/
def clientReopening : WSClient :=
  { sock := SockState.connecting
    isManualClose := false
    reconnectTimer := none
    liveTimers := []
    nextTimerId := 1
    activeStreams := ["workers_info", "pending_tasks_info"]
    sent := [] }

/-- Witness for C7 at the concrete reopening client: the two desired
start commands are appended once each and the stopped stream gets
none. -/
theorem reconnect_replays_desired_streams_witness :
    (onOpenEvent clientReopening).sent
      = clientReopening.sent ++
        clientReopening.activeStreams.map (fun s => "start_" ++ s) ∧
    (clientReopening.activeStreams.map (fun s => "start_" ++ s)).count
      ("start_" ++ "workers_info") = 1 ∧
    (clientReopening.activeStreams.map (fun s => "start_" ++ s)).count
      ("start_" ++ "completed_tasks_info") = 0 := by
  have h := reconnect_replays_desired_streams clientReopening (by decide)
  exact ⟨h.1, h.2.1 ("workers_info") (by decide),
    h.2.2 ("completed_tasks_info") (by decide)⟩
